import Mathlib

/-!
Verification of the shutdown-dashboard normalization-and-analytics pipeline
(`src/app.py`): a shallow embedding of its data operations — schema
reconciliation recovery steps, type/completeness normalization, the filter
engine, the KPI and distribution aggregates, and the text miner — together
with proofs of the specified properties.

Cells of the tabular data are modelled as `Option String` (a `none` is a
missing value, pandas `NaN`/`NaT`); parsed timestamps as `Option Nat`
(minutes since an epoch); parsed downtime hours as `Option Rat`.
-/

/-! ## String primitives

Models of the pandas/python string operations used by `load_data`
(`.astype(str)`, `.str.lower()`, `.str.strip()`), written over the
character list of the string. -/

/-- Model of pandas `.astype(str)` on a nullable string cell: a missing
value prints as the literal text `"nan"`. -/
def astype (o : Option String) : String :=
  match o with
  | some s => s
  | none => "nan"

/-- Model of python `str.lower` (`.str.lower()`), character by character. -/
def pyLower (s : String) : String := String.mk (s.data.map Char.toLower)

/-- Strip leading and trailing whitespace from a character list. -/
def stripChars (l : List Char) : List Char :=
  ((l.dropWhile Char.isWhitespace).reverse.dropWhile Char.isWhitespace).reverse

/-- Model of python `str.strip` (`.str.strip()`). -/
def pyStrip (s : String) : String := String.mk (stripChars s.data)

/-- The normalization `.str.lower().str.strip()` applied to a reason cell
in `load_data` (src/app.py lines 87 and 119). -/
def normLS (s : String) : String := pyStrip (pyLower s)

/-! ## Reason recovery (src/app.py lines 85–92 and 118–121)

The CSV branch replaces a reason cell by the remark cell when the
normalized reason equals `"other"`, the remark is non-null, and the remark
text strips to something non-empty.  The Excel branch performs the same
replacement but checks only `notna()` on the remark — no non-emptiness
test. -/

/-- One row of the CSV reason-recovery step (src/app.py lines 85–92):
`condition = (reason.astype(str).str.lower().str.strip() == "other")
 & remark.notna() & (remark.astype(str).str.strip() != "")`,
and where the condition holds the reason cell is overwritten by the
remark cell. -/
def reasonRecoverCSV (reason remark : Option String) : Option String :=
  if normLS (astype reason) = "other" ∧ remark.isSome = true ∧ pyStrip (astype remark) ≠ "" then
    remark
  else
    reason

/-- One row of the Excel reason-recovery step (src/app.py lines 118–121):
`condition = (reason.astype(str).str.lower().str.strip() == "other")
 & remark.notna()` — the non-emptiness test on the remark is absent in
this branch. -/
def reasonRecoverExcel (reason remark : Option String) : Option String :=
  if normLS (astype reason) = "other" ∧ remark.isSome = true then
    remark
  else
    reason

/-- The spec's side condition "the remark field holds non-empty text":
the remark is non-null and its text strips to something non-empty. -/
def holdsNonemptyText : Option String → Bool
  | some r => decide (pyStrip r ≠ "")
  | none => false

/-! ## Date imputation (src/app.py lines 131–136)

`if df["Shutdown Date/Time"].notna().any():
   min_valid_date = df["Shutdown Date/Time"].min()
   df["Shutdown Date/Time"] = df["Shutdown Date/Time"].fillna(min_valid_date)`

pandas `Series.min` skips nulls, and `fillna` replaces exactly the null
entries.  When every entry is null the guard fails and the column is left
untouched. -/

/-- The shutdown-timestamp imputation step: when at least one parsed
timestamp is non-null, every null entry is replaced by the minimum
non-null timestamp; otherwise the column is unchanged. -/
def imputeShutdown (l : List (Option Nat)) : List (Option Nat) :=
  match (l.filterMap id).min? with
  | none => l
  | some m => l.map (fun o => some (o.getD m))

/-! ## Filter engine (src/app.py lines 234–253)

One row of the canonical table, restricted to the fields the filter engine
and the aggregates read.  A `none` shutdown timestamp models `NaT` (which
the date-range comparison treats as out of range), and a `none` downtime
models `NaN`. -/

/-- A canonical-table row as seen by the filter engine and aggregates. -/
structure Row where
  site : String
  well : String
  reason : String
  alert : String
  shutdown : Option Nat
  downtime : Option Rat
deriving DecidableEq

/-- `.dt.date` at day granularity: the day index of a timestamp counted in
minutes since the epoch. -/
def dayOf (t : Nat) : Nat := t / 1440

/-- The date-range predicate of src/app.py lines 250–253:
`(df["Shutdown Date/Time"].dt.date >= start) & (… <= end)`, both ends
inclusive at day granularity; a `NaT` timestamp compares false. -/
def datePred (a b : Nat) (r : Row) : Bool :=
  match r.shutdown with
  | none => false
  | some t => decide (a ≤ dayOf t) && decide (dayOf t ≤ b)

/-- The filter block of src/app.py lines 234–253: each specified selector
(`none` models the "All …" sentinel) filters the running table in turn,
and the date-range filter is applied only when the date widget supplies
exactly two values. -/
def applyFilters (t : List Row) (siteSel wellSel reasonSel alertSel : Option String)
    (dateSel : List Nat) : List Row :=
  let t1 := match siteSel with
            | none => t
            | some s => t.filter (fun r => r.site == s)
  let t2 := match wellSel with
            | none => t1
            | some s => t1.filter (fun r => r.well == s)
  let t3 := match reasonSel with
            | none => t2
            | some s => t2.filter (fun r => r.reason == s)
  let t4 := match alertSel with
            | none => t3
            | some s => t3.filter (fun r => r.alert == s)
  match dateSel with
  | [a, b] => t4.filter (datePred a b)
  | _ => t4

/-- One specified selector of the filter bar. -/
inductive Selector where
  | bySite (s : String)
  | byWell (s : String)
  | byReason (s : String)
  | byAlert (s : String)
  | byDateRange (a b : Nat)

/-- The row predicate of a single specified selector. -/
def selPred : Selector → Row → Bool
  | .bySite s, r => r.site == s
  | .byWell s, r => r.well == s
  | .byReason s, r => r.reason == s
  | .byAlert s, r => r.alert == s
  | .byDateRange a b, r => datePred a b r

/-- Filtering the table by one specified selector. -/
def filterBy (t : List Row) (s : Selector) : List Row := t.filter (selPred s)

/-! ## KPI scalars (src/app.py lines 262–268)

pandas `Series.sum()` and `Series.mean()` skip `NaN` entries (and the mean
of an all-`NaN` series is `NaN`, modelled `none`); the elementwise
comparison `series > 24` evaluates to `False` on `NaN`, so
`(series > 24).sum()` counts the non-null entries strictly above 24. -/

/-- pandas `Series.sum()` over a nullable numeric column: nulls skipped. -/
def seriesSum : List (Option Rat) → Rat
  | [] => 0
  | none :: rest => seriesSum rest
  | some v :: rest => v + seriesSum rest

/-- The number of non-null entries of a nullable numeric column. -/
def seriesCount : List (Option Rat) → Nat
  | [] => 0
  | none :: rest => seriesCount rest
  | some _ :: rest => 1 + seriesCount rest

/-- pandas `Series.mean()`: the sum of the non-null entries over their
count, `NaN` (here `none`) when there are none. -/
def seriesMean (l : List (Option Rat)) : Option Rat :=
  if seriesCount l = 0 then none else some (seriesSum l / (seriesCount l : Rat))

/-- The elementwise comparison `series > 24`: `False` on a null entry. -/
def gt24 : Option Rat → Bool
  | some v => decide (24 < v)
  | none => false

/-- The `>24h Shutdowns` KPI `(filtered_df["Downtime (Hrs)"] > 24).sum()`
of src/app.py line 267. -/
def countOver24 (l : List (Option Rat)) : Nat := (l.map gt24).count true

/-! ## Reason distribution with overflow bucket (src/app.py lines 300–311)

`value_counts()` produces one `(category, count)` row per distinct value,
sorted by count descending (ties kept in first-occurrence order, the order
`uniqueKeys` produces); when more than 15 rows result, the code keeps
`head(15)` and appends one `"Misc / Low Freq Reasons"` row whose count is
the sum of the remaining counts (guarded by `other_count > 0`). -/

/-- The distinct values of a column in first-occurrence order. -/
def uniqueKeys : List String → List String
  | [] => []
  | x :: xs => x :: (uniqueKeys xs).filter (fun y => y != x)

/-- pandas `Series.value_counts()`: `(value, count)` rows sorted by count
descending, with a stable sort so ties stay in first-occurrence order. -/
def valueCounts (l : List String) : List (String × Nat) :=
  ((uniqueKeys l).map (fun k => (k, l.count k))).mergeSort (fun a b => decide (b.2 ≤ a.2))

/-- The overflow grouping of src/app.py lines 302–311: when the reason
column has more than 15 distinct values, keep the top 15 rows and append
one `"Misc / Low Freq Reasons"` row carrying the sum of the tail counts. -/
def reasonDistribution (l : List String) : List (String × Nat) :=
  if 15 < (valueCounts l).length then
    if 0 < (((valueCounts l).drop 15).map Prod.snd).sum then
      (valueCounts l).take 15 ++
        [("Misc / Low Freq Reasons", (((valueCounts l).drop 15).map Prod.snd).sum)]
    else valueCounts l
  else valueCounts l

/-- Twenty distinct reason categories, matching the spec's overflow
example. -/
def ex20 : List String :=
  ["r01", "r02", "r03", "r04", "r05", "r06", "r07", "r08", "r09", "r10",
   "r11", "r12", "r13", "r14", "r15", "r16", "r17", "r18", "r19", "r20"]

/-! ## Categorical defaults and required columns (src/app.py lines 125–147)

Lines 141–144: when the `ShutdownReason` column exists, its missing values
are filled with the sentinel `"Unknown / Not Reported"`; when the column
is entirely absent a constant `"Unknown"` column is created.  Lines
127–129 access `Shutdown Date/Time`, `Start Up Date/Time` and
`Downtime (Hrs)` unguarded — a missing column raises a `KeyError` naming
the column — while reason (line 141) and alert (line 146) accesses are
guarded by membership tests and the remark column is only read inside
guarded recovery code. -/

/-- The reason-column completion of src/app.py lines 141–144: `fillna` with
`"Unknown / Not Reported"` when the column is present, a constant
`"Unknown"` column of the table's row count when it is absent. -/
def fillReason (reasonCol : Option (List (Option String))) (n : Nat) : List String :=
  match reasonCol with
  | some col => col.map (fun o => o.getD "Unknown / Not Reported")
  | none => List.replicate n "Unknown"

/-- The reconciled table handed to step 2 of `load_data`: each column is
either absent (`none`) or a list of nullable cells. -/
structure RawTable where
  shutdownCol : Option (List (Option String))
  startupCol : Option (List (Option String))
  downtimeCol : Option (List (Option String))
  siteCol : Option (List (Option String))
  wellCol : Option (List (Option String))
  reasonCol : Option (List (Option String))
  alertCol : Option (List (Option String))
  remarkCol : Option (List (Option String))

/-- The canonical table produced by `load_data`: typed columns with the
sentinels filled in; the alert column exists only when the source carried
one, and the remark column is passed through. -/
structure CanonTable where
  shutdown : List (Option Nat)
  startup : List (Option Nat)
  downtime : List (Option Rat)
  site : List String
  well : List String
  reason : List String
  alert : Option (List String)
  remark : Option (List (Option String))

/-- A pandas column access `df[colName]`: the column when present, a
`KeyError` carrying the column name when absent. -/
def requireCol (colName : String) (c : Option (List (Option String))) :
    Except String (List (Option String)) :=
  match c with
  | some col => .ok col
  | none => .error colName

/-- Steps 2–3 of `load_data` (src/app.py lines 125–147), parameterized over
the value-level coercions `pd.to_datetime(…, dayfirst=True,
errors="coerce")` and `pd.to_numeric(…, errors="coerce")` (the claims here
hold for every coercion): unguarded accesses of the timestamp and downtime
columns in source order, minimum-date imputation, then the categorical
defaults, with reason and alert guarded by column presence. -/
def normalizeTable (parseD : String → Option Nat) (parseN : String → Option Rat)
    (t : RawTable) : Except String CanonTable := do
  let sdRaw ← requireCol "Shutdown Date/Time" t.shutdownCol
  let suRaw ← requireCol "Start Up Date/Time" t.startupCol
  let dtRaw ← requireCol "Downtime (Hrs)" t.downtimeCol
  let sd := imputeShutdown (sdRaw.map (fun o => o.bind parseD))
  let su := suRaw.map (fun o => o.bind parseD)
  let dtv := dtRaw.map (fun o => o.bind parseN)
  let siteRaw ← requireCol "Site" t.siteCol
  let wellRaw ← requireCol "Well" t.wellCol
  pure { shutdown := sd
         startup := su
         downtime := dtv
         site := siteRaw.map (fun o => o.getD "Unknown Site")
         well := wellRaw.map (fun o => o.getD "Unknown Well")
         reason := fillReason t.reasonCol sdRaw.length
         alert := t.alertCol.map (fun col => col.map (fun o => o.getD "No Alert"))
         remark := t.remarkCol }

/-! ## Text miner (spec §4.5)

The text-mining component is described by the spec but absent from
`src/app.py`; the definitions below are modelled from the spec's words. -/

/-- Modelled from the spec: a "word" character of the tokenizer ("strip all
non-word, non-whitespace characters"). -/
def isWordChar (c : Char) : Bool := c.isAlphanum || c == '_'

/-- Split a character list into maximal whitespace-free runs; `cur` holds
the reversed characters of the run being read. -/
def splitWsAux (cur : List Char) : List Char → List (List Char)
  | [] => if cur.isEmpty then [] else [cur.reverse]
  | c :: rest =>
    if c.isWhitespace then
      if cur.isEmpty then splitWsAux [] rest
      else cur.reverse :: splitWsAux [] rest
    else splitWsAux (c :: cur) rest

/-- Modelled from the spec: "Lowercase; strip all non-word, non-whitespace
characters; split on whitespace." -/
def tokenize (s : String) : List String :=
  (splitWsAux [] ((s.data.map Char.toLower).filter (fun c => isWordChar c || c.isWhitespace))).map
    (fun cs => String.mk cs)

/-- A purely numeric token. -/
def isNumericTok (s : String) : Bool := s.data.all Char.isDigit

/-- Modelled from the spec: the fixed stopword set — generic English
stopwords plus operational jargon ("shutdown", "trip", "alarm", "well",
unit abbreviations). -/
def stopwordSet : List String :=
  ["the", "a", "an", "and", "or", "of", "to", "in", "on", "at", "for", "with",
   "from", "due", "was", "is", "are", "shutdown", "trip", "alarm", "well",
   "unit", "hrs", "psi", "rpm"]

/-- A token survives the discard step: not a stopword, not purely numeric,
and at least 3 characters long. -/
def survives (w : String) : Bool :=
  !(stopwordSet.contains w) && !(isNumericTok w) && decide (3 ≤ w.length)

/-- Modelled from the spec: the Text Miner (§4.5), absent from src/.
Concatenate the non-null remark and reason values, tokenize, discard
stopwords, purely numeric tokens and tokens shorter than 3 characters,
count frequencies, and return the top 20 by descending frequency with ties
in first-occurrence order. -/
def mineText (remarks reasons : List (Option String)) : List (String × Nat) :=
  (valueCounts
    (((remarks.filterMap id ++ reasons.filterMap id).map tokenize).flatten.filter survives)).take 20

/-! ## Lemmas and theorems -/

/-- C1 (counterexample): in the Excel branch a reason `"Other"` paired with
a whitespace-only remark `" "` — which holds no non-empty text — is still
replaced by the remark, so the replacement does not happen "exactly when
… the remark field holds non-empty text" as claimed. -/
theorem reason_recovery_C1_counterexample :
    reasonRecoverExcel (some "Other") (some " ") = some " "
  ∧ holdsNonemptyText (some " ") = false
  ∧ reasonRecoverExcel (some "Other") (some " ") ≠ some "Other" := by
  decide

/-- C1 (amended): in the CSV branch the remark replaces the reason exactly
when the case/whitespace-normalized reason equals `"other"` and the remark
holds non-empty text; in the Excel branch it replaces exactly when the
normalized reason equals `"other"` and the remark is non-null (even when
its text is empty or whitespace); any reason whose normalized value is not
`"other"` is left unchanged in both branches. -/
theorem reason_recovery_C1 (reason remark : Option String) :
    (reasonRecoverCSV reason remark =
       if normLS (astype reason) = "other" ∧ holdsNonemptyText remark = true then remark
       else reason)
  ∧ (reasonRecoverExcel reason remark =
       if normLS (astype reason) = "other" ∧ remark.isSome = true then remark
       else reason)
  ∧ (normLS (astype reason) ≠ "other" →
       reasonRecoverCSV reason remark = reason ∧ reasonRecoverExcel reason remark = reason) := by
  refine ⟨?_, rfl, ?_⟩
  · cases remark with
    | none => simp [reasonRecoverCSV, holdsNonemptyText]
    | some r =>
      by_cases hr : pyStrip r = "" <;>
        simp [reasonRecoverCSV, holdsNonemptyText, astype, hr]
  · intro h
    constructor
    · simp [reasonRecoverCSV, h]
    · simp [reasonRecoverExcel, h]

/-- C1 (witness): a reason `"Other Issue"` is not an exact normalized match
of `"other"`, and is left unchanged by both recovery branches even though a
remark is present. -/
theorem reason_recovery_C1_witness :
    normLS (astype (some "Other Issue")) ≠ "other"
  ∧ reasonRecoverCSV (some "Other Issue") (some "pump failure") = some "Other Issue"
  ∧ reasonRecoverExcel (some "Other Issue") (some "pump failure") = some "Other Issue" := by
  refine ⟨by decide, ?_, ?_⟩
  · exact ((reason_recovery_C1 (some "Other Issue") (some "pump failure")).2.2 (by decide)).1
  · exact ((reason_recovery_C1 (some "Other Issue") (some "pump failure")).2.2 (by decide)).2

/-- C2: when the shutdown-timestamp column has minimum non-null value `m`,
imputation maps every cell to a non-null value — a null cell becomes `m`
and a non-null cell keeps its value — and `m` really is the minimum: it
occurs among the non-null values and is below every one of them. -/
theorem date_imputation_C2 (l : List (Option Nat)) (m : Nat)
    (h : (l.filterMap id).min? = some m) :
    imputeShutdown l = l.map (fun o => some (o.getD m))
  ∧ m ∈ l.filterMap id
  ∧ (∀ v ∈ l.filterMap id, m ≤ v)
  ∧ (∀ o ∈ imputeShutdown l, o.isSome = true) := by
  have hmem : m ∈ l.filterMap id ∧ ∀ b ∈ l.filterMap id, m ≤ b := by
    rw [List.min?_eq_some_iff] at h
    · exact h
    · exact fun a => Nat.le_refl a
    · exact fun a b => min_choice a b
    · exact fun a b c => le_min_iff
  have himp : imputeShutdown l = l.map (fun o => some (o.getD m)) := by
    unfold imputeShutdown
    rw [h]
  refine ⟨himp, hmem.1, hmem.2, ?_⟩
  intro o ho
  rw [himp] at ho
  obtain ⟨x, _, hx⟩ := List.mem_map.mp ho
  simp [← hx]

/-- C2 (witness): the spec's example — timestamps `[null, d, null]` all
become `d` (here `d` is day 19787, i.e. 2024-03-05, as a day number). -/
theorem date_imputation_C2_witness :
    (([none, some 19787, none] : List (Option Nat)).filterMap id).min? = some 19787
  ∧ imputeShutdown [none, some 19787, none] = [some 19787, some 19787, some 19787] := by
  refine ⟨by decide, ?_⟩
  rw [(date_imputation_C2 [none, some 19787, none] 19787 (by decide)).1]
  decide

/-- C9: when every parsed shutdown timestamp is null, the `notna().any()`
guard fails, no imputation is performed, and every timestamp remains null
in the canonical table. -/
theorem impute_skip_C9 (l : List (Option Nat)) (h : ∀ o ∈ l, o = none) :
    imputeShutdown l = l ∧ ∀ o ∈ imputeShutdown l, o = none := by
  have hnil : l.filterMap id = [] := by
    rw [List.filterMap_eq_nil_iff]
    intro a ha
    rw [h a ha]
    rfl
  have heq : imputeShutdown l = l := by
    unfold imputeShutdown
    rw [hnil]
    rfl
  exact ⟨heq, fun o ho => h o (heq ▸ ho)⟩

/-- C9 (witness): a column of two null timestamps is left untouched. -/
theorem impute_skip_C9_witness :
    imputeShutdown [none, none] = [none, none] :=
  (impute_skip_C9 [none, none] (by decide)).1

/-- C3: applying two specified selectors at once (conjunction of their
predicates) equals applying them one after the other, in either order; the
all-unspecified filter leaves the table unchanged; and the sequential
filter block of the code is exactly the chain of single-selector
filters. -/
theorem filter_conjunction_C3 (t : List Row) (s1 s2 : Selector) :
    t.filter (fun r => selPred s1 r && selPred s2 r) = filterBy (filterBy t s1) s2
  ∧ filterBy (filterBy t s1) s2 = filterBy (filterBy t s2) s1
  ∧ applyFilters t none none none none [] = t
  ∧ (∀ (s w re al : String) (a b : Nat),
       applyFilters t (some s) (some w) (some re) (some al) [a, b] =
         filterBy (filterBy (filterBy (filterBy (filterBy t (.bySite s)) (.byWell w))
           (.byReason re)) (.byAlert al)) (.byDateRange a b)) := by
  refine ⟨?_, ?_, rfl, fun s w re al a b => rfl⟩
  · rw [filterBy, filterBy, List.filter_filter]
    apply List.filter_congr
    intro r _
    exact Bool.and_comm (selPred s1 r) (selPred s2 r)
  · rw [filterBy, filterBy, filterBy, filterBy, List.filter_filter, List.filter_filter]
    apply List.filter_congr
    intro r _
    exact Bool.and_comm (selPred s2 r) (selPred s1 r)

/-- C10: when the date widget supplies anything but exactly two bounds, the
date-range predicate is not applied at all — the result equals the
conjunction of the remaining selectors only; with two bounds the date
filter is applied last, and row membership is decided at day granularity
with both ends inclusive. -/
theorem date_range_skip_C10 (t : List Row) (s w re al : Option String) (d : List Nat) :
    (d.length ≠ 2 → applyFilters t s w re al d = applyFilters t s w re al [])
  ∧ (∀ a b, applyFilters t s w re al [a, b] =
       (applyFilters t s w re al []).filter (datePred a b))
  ∧ (∀ a b (r : Row), datePred a b r = true ↔
       ∃ ts, r.shutdown = some ts ∧ a ≤ dayOf ts ∧ dayOf ts ≤ b) := by
  refine ⟨?_, fun a b => rfl, ?_⟩
  · intro hd
    match d with
    | [] => rfl
    | [_] => rfl
    | [_, _] => exact absurd rfl hd
    | _ :: _ :: _ :: _ => rfl
  · intro a b r
    cases hs : r.shutdown with
    | none => simp [datePred, hs]
    | some ts => simp [datePred, hs]

/-- C10 (witness): with a single date bound the date filter is skipped on a
concrete one-row table. -/
theorem date_range_skip_C10_witness :
    applyFilters [{ site := "SiteA", well := "W1", reason := "Other",
                    alert := "No Alert", shutdown := some 28500000, downtime := some 12 }]
        (some "SiteA") none none none [5] =
      applyFilters [{ site := "SiteA", well := "W1", reason := "Other",
                      alert := "No Alert", shutdown := some 28500000, downtime := some 12 }]
        (some "SiteA") none none none [] :=
  (date_range_skip_C10 _ (some "SiteA") none none none [5]).1 (by decide)

lemma seriesSum_eq_filterMap (l : List (Option Rat)) :
    seriesSum l = (l.filterMap id).sum := by
  induction l with
  | nil => rfl
  | cons o rest ih => cases o <;> simp [seriesSum, ih]

lemma seriesCount_eq_filterMap (l : List (Option Rat)) :
    seriesCount l = (l.filterMap id).length := by
  induction l with
  | nil => rfl
  | cons o rest ih => cases o <;> simp [seriesCount, ih, Nat.add_comm]

lemma countOver24_eq_filterMap (l : List (Option Rat)) :
    countOver24 l = ((l.filterMap id).filter (fun v => decide (24 < v))).length := by
  induction l with
  | nil => rfl
  | cons o rest ih =>
    cases o with
    | none => simpa [countOver24, gt24] using ih
    | some v =>
      by_cases hv : 24 < v <;>
        simp [countOver24, gt24, hv, List.filter_cons, List.count_cons, ← ih]

/-- C4: the sum and mean KPIs of `downtime_hours` range over exactly the
non-null values (the mean of an all-null column is null), the
count-above-24h KPI counts exactly the rows whose downtime is non-null and
strictly greater than 24, and the spec's example `[10, null, 30]` yields
sum 40, mean 20 and count-above-24h 1. -/
theorem kpi_null_safety_C4 (l : List (Option Rat)) :
    seriesSum l = (l.filterMap id).sum
  ∧ ((l.filterMap id) ≠ [] →
       seriesMean l = some ((l.filterMap id).sum / ((l.filterMap id).length : Rat)))
  ∧ ((l.filterMap id) = [] → seriesMean l = none)
  ∧ countOver24 l = ((l.filterMap id).filter (fun v => decide (24 < v))).length
  ∧ (seriesSum [some 10, none, some 30] = 40
     ∧ seriesMean [some 10, none, some 30] = some 20
     ∧ countOver24 [some 10, none, some 30] = 1) := by
  refine ⟨seriesSum_eq_filterMap l, ?_, ?_, countOver24_eq_filterMap l, ?_, ?_, ?_⟩
  · intro h
    rw [seriesMean, if_neg, seriesSum_eq_filterMap, seriesCount_eq_filterMap]
    rw [seriesCount_eq_filterMap]
    simpa using h
  · intro h
    rw [seriesMean, if_pos]
    rw [seriesCount_eq_filterMap, h]
    rfl
  · norm_num [seriesSum]
  · norm_num [seriesMean, seriesCount, seriesSum]
  · decide

/-- C4 (witness): the example column `[10, null, 30]` is non-empty after
dropping nulls, and its mean KPI is the sum of its two non-null values
over their count. -/
theorem kpi_null_safety_C4_witness :
    (([some 10, none, some 30] : List (Option Rat)).filterMap id) ≠ []
  ∧ seriesMean ([some 10, none, some 30] : List (Option Rat)) =
      some ((([some (10:Rat), none, some 30] : List (Option Rat)).filterMap id).sum /
        (((([some (10:Rat), none, some 30] : List (Option Rat)).filterMap id).length : Nat) : Rat)) := by
  refine ⟨?_, ?_⟩
  · intro h
    simp [List.filterMap] at h
  · exact (kpi_null_safety_C4 [some 10, none, some 30]).2.1 (by intro h; simp [List.filterMap] at h)

lemma mem_uniqueKeys {x : String} {l : List String} (h : x ∈ uniqueKeys l) : x ∈ l := by
  induction l with
  | nil => simp [uniqueKeys] at h
  | cons a as ih =>
    simp only [uniqueKeys, List.mem_cons] at h ⊢
    rcases h with h | h
    · exact Or.inl h
    · exact Or.inr (ih (List.mem_of_mem_filter h))

lemma length_valueCounts (l : List String) :
    (valueCounts l).length = (uniqueKeys l).length := by
  rw [valueCounts, List.length_mergeSort, List.length_map]

lemma mem_valueCounts {l : List String} {p : String × Nat} (h : p ∈ valueCounts l) :
    p.1 ∈ l ∧ p.2 = l.count p.1 ∧ 0 < p.2 := by
  have hm := List.mem_mergeSort.mp h
  obtain ⟨k, hk, hp⟩ := List.mem_map.mp hm
  obtain rfl := hp.symm
  have hkl : k ∈ l := mem_uniqueKeys hk
  exact ⟨hkl, rfl, List.count_pos_iff.mpr hkl⟩

lemma sorted_valueCounts (l : List String) :
    List.Pairwise (fun a b : String × Nat => b.2 ≤ a.2) (valueCounts l) := by
  have hs := @List.sorted_mergeSort (String × Nat) (fun a b => decide (b.2 ≤ a.2))
    (fun a b c hab hbc => by
      simp only [decide_eq_true_eq] at *
      omega)
    (fun a b => by simpa using Nat.le_total b.2 a.2)
    ((uniqueKeys l).map (fun k => (k, l.count k)))
  exact hs.imp (fun hab => by simpa using hab)

/-- C5: with at most 15 distinct reason values the distribution is returned
unchanged; with more, the output is exactly the top 15 rows of the
count-descending distribution followed by one synthetic
`"Misc / Low Freq Reasons"` row whose count is the sum of the counts ranked
16 and beyond — 16 = K+1 rows in all; and the distribution is sorted by
count descending. -/
theorem overflow_bucketing_C5 (l : List String) :
    ((valueCounts l).length ≤ 15 → reasonDistribution l = valueCounts l)
  ∧ (15 < (valueCounts l).length →
       reasonDistribution l = (valueCounts l).take 15 ++
         [("Misc / Low Freq Reasons", (((valueCounts l).drop 15).map Prod.snd).sum)]
       ∧ (reasonDistribution l).length = 16)
  ∧ List.Pairwise (fun a b : String × Nat => b.2 ≤ a.2) (valueCounts l) := by
  refine ⟨?_, ?_, sorted_valueCounts l⟩
  · intro h
    rw [reasonDistribution, if_neg (by omega)]
  · intro h
    have hne : ((valueCounts l).drop 15).map Prod.snd ≠ [] := by
      apply List.ne_nil_of_length_pos
      rw [List.length_map, List.length_drop]
      omega
    have hpos : ∀ y ∈ ((valueCounts l).drop 15).map Prod.snd, 0 < y := by
      intro y hy
      obtain ⟨p, hp, hpy⟩ := List.mem_map.mp hy
      have hpmem : p ∈ valueCounts l := (List.drop_sublist 15 _).subset hp
      obtain rfl := hpy.symm
      exact (mem_valueCounts hpmem).2.2
    have hoc : 0 < (((valueCounts l).drop 15).map Prod.snd).sum :=
      List.sum_pos _ hpos hne
    have heq : reasonDistribution l = (valueCounts l).take 15 ++
        [("Misc / Low Freq Reasons", (((valueCounts l).drop 15).map Prod.snd).sum)] := by
      rw [reasonDistribution, if_pos h, if_pos hoc]
    refine ⟨heq, ?_⟩
    rw [heq, List.length_append, List.length_take]
    simp
    omega

/-- C5 (witness): twenty distinct reason categories exceed the cap and the
distribution output collapses to exactly 16 rows. -/
theorem overflow_bucketing_C5_witness :
    15 < (valueCounts ex20).length ∧ (reasonDistribution ex20).length = 16 := by
  have hlen : 15 < (valueCounts ex20).length := by
    rw [length_valueCounts]
    decide
  exact ⟨hlen, ((overflow_bucketing_C5 ex20).2.1 hlen).2⟩

/-- C6 (counterexample): a row whose source reason is missing, in a table
whose reason column is present, gets the sentinel
`"Unknown / Not Reported"` — not the claimed literal `"Unknown"`; and a
source reason that is an empty string passes through unchanged, so the
reason field is not always non-empty either. -/
theorem reason_sentinel_C6_counterexample :
    fillReason (some [none]) 1 = ["Unknown / Not Reported"]
  ∧ fillReason (some [none]) 1 ≠ ["Unknown"]
  ∧ fillReason (some [some ""]) 1 = [""] := by
  decide

/-- C6 (amended): when the reason column is present, every missing source
reason becomes `"Unknown / Not Reported"` and every present source value
passes through unchanged; when the reason column is entirely absent, every
row's reason is the literal `"Unknown"`. -/
theorem reason_sentinel_C6 (col : List (Option String)) (n : Nat) :
    fillReason (some col) n = col.map (fun o => o.getD "Unknown / Not Reported")
  ∧ (∀ i (hi : i < col.length) (hi2 : i < (fillReason (some col) n).length),
       col.get ⟨i, hi⟩ = none →
       (fillReason (some col) n).get ⟨i, hi2⟩ = "Unknown / Not Reported")
  ∧ (∀ i (hi : i < col.length) (hi2 : i < (fillReason (some col) n).length) (s : String),
       col.get ⟨i, hi⟩ = some s →
       (fillReason (some col) n).get ⟨i, hi2⟩ = s)
  ∧ fillReason none n = List.replicate n "Unknown" := by
  refine ⟨rfl, ?_, ?_, rfl⟩
  · intro i hi hi2 hnone
    simp only [fillReason, List.get_eq_getElem, List.getElem_map] at *
    rw [hnone]
    rfl
  · intro i hi hi2 s hsome
    simp only [fillReason, List.get_eq_getElem, List.getElem_map] at *
    rw [hsome]
    rfl

/-- C6 (witness): in a two-row table with reason column `[null, "Pump"]`,
the first row's reason becomes `"Unknown / Not Reported"`. -/
theorem reason_sentinel_C6_witness :
    (fillReason (some [none, some "Pump"]) 2).get ⟨0, by decide⟩ = "Unknown / Not Reported" :=
  (reason_sentinel_C6 [none, some "Pump"] 2).2.1 0 (by decide) (by decide) (by decide)

/-- C7: a reconciled table lacking the shutdown-timestamp column fails with
an error naming `"Shutdown Date/Time"`; one lacking the downtime column
(the timestamp columns being present) fails with an error naming
`"Downtime (Hrs)"`; and whenever the structurally required columns are
present, ingestion succeeds regardless of the reason, alert and remark
columns — an absent reason column yields the constant `"Unknown"` default
and an absent alert column stays absent. -/
theorem schema_error_C7 (parseD : String → Option Nat) (parseN : String → Option Rat)
    (t : RawTable) :
    (t.shutdownCol = none → normalizeTable parseD parseN t = .error "Shutdown Date/Time")
  ∧ (∀ a b, t.shutdownCol = some a → t.startupCol = some b → t.downtimeCol = none →
       normalizeTable parseD parseN t = .error "Downtime (Hrs)")
  ∧ (∀ a b c d e, t.shutdownCol = some a → t.startupCol = some b → t.downtimeCol = some c →
       t.siteCol = some d → t.wellCol = some e →
       ∃ ct, normalizeTable parseD parseN t = .ok ct
         ∧ (t.reasonCol = none → ct.reason = List.replicate a.length "Unknown")
         ∧ (t.alertCol = none → ct.alert = none)) := by
  refine ⟨?_, ?_, ?_⟩
  · intro h
    rw [normalizeTable, h]
    rfl
  · intro a b hsd hsu hdt
    rw [normalizeTable, hsd, hsu, hdt]
    rfl
  · intro a b c d e hsd hsu hdt hsite hwell
    have heq : normalizeTable parseD parseN t = .ok
        { shutdown := imputeShutdown (a.map (fun o => o.bind parseD))
          startup := b.map (fun o => o.bind parseD)
          downtime := c.map (fun o => o.bind parseN)
          site := d.map (fun o => o.getD "Unknown Site")
          well := e.map (fun o => o.getD "Unknown Well")
          reason := fillReason t.reasonCol a.length
          alert := t.alertCol.map (fun col => col.map (fun o => o.getD "No Alert"))
          remark := t.remarkCol } := by
      rw [normalizeTable, hsd, hsu, hdt, hsite, hwell]
      rfl
    refine ⟨_, heq, ?_, ?_⟩
    · intro hr
      simp [hr, fillReason]
    · intro ha
      simp [ha]

/-- C7 (witness): a concrete reconciled table with no shutdown-timestamp
column makes ingestion fail with an error naming the missing field. -/
theorem schema_error_C7_witness :
    normalizeTable (fun _ => none) (fun _ => none)
      { shutdownCol := none, startupCol := some [], downtimeCol := some []
        siteCol := some [], wellCol := some [], reasonCol := none
        alertCol := none, remarkCol := none } = .error "Shutdown Date/Time" :=
  (schema_error_C7 (fun _ => none) (fun _ => none) _).1 rfl

/-- Concrete run of the text miner: tokens are lowercased, punctuation is
stripped, the stopword `"at"` and short tokens are discarded, and the
frequencies come out in descending order. -/
theorem mineText_sample_eval :
    mineText [some "Pump failure, pump seal"] [] =
      [("pump", 2), ("failure", 1), ("seal", 1)] := by
  have h1 : (((([some "Pump failure, pump seal"] : List (Option String)).filterMap id ++
      (([] : List (Option String)).filterMap id)).map tokenize).flatten.filter survives) =
      ["pump", "failure", "pump", "seal"] := by decide
  rw [mineText, h1]
  have h2 : valueCounts ["pump", "failure", "pump", "seal"] =
      [("pump", 2), ("failure", 1), ("seal", 1)] := by
    rw [valueCounts]
    have h3 : (uniqueKeys ["pump", "failure", "pump", "seal"]).map
        (fun k => (k, (["pump", "failure", "pump", "seal"] : List String).count k)) =
        [("pump", 2), ("failure", 1), ("seal", 1)] := by decide
    rw [h3]
    exact List.mergeSort_of_sorted (by decide)
  rw [h2]
  rfl

/-- C8: the text miner returns at most 20 ranked tokens; every returned
token is not a stopword, not purely numeric, at least 3 characters long,
and has a positive count; the ranking is by descending frequency; and
empty input — no text values, or all of them empty — yields an empty
result rather than an error. -/
theorem text_miner_C8 (remarks reasons : List (Option String)) :
    (mineText remarks reasons).length ≤ 20
  ∧ (∀ p ∈ mineText remarks reasons,
       stopwordSet.contains p.1 = false ∧ isNumericTok p.1 = false ∧ 3 ≤ p.1.length ∧ 0 < p.2)
  ∧ List.Pairwise (fun a b : String × Nat => b.2 ≤ a.2) (mineText remarks reasons)
  ∧ ((∀ o ∈ remarks, o = none ∨ o = some "") → (∀ o ∈ reasons, o = none ∨ o = some "") →
       mineText remarks reasons = []) := by
  refine ⟨List.length_take_le 20 _, ?_, ?_, ?_⟩
  · intro p hp
    have hvc := mem_valueCounts (List.mem_of_mem_take hp)
    have hflt := List.mem_filter.mp hvc.1
    have hsv := hflt.2
    simp only [survives, Bool.and_eq_true, Bool.not_eq_true', decide_eq_true_eq] at hsv
    exact ⟨hsv.1.1, hsv.1.2, hsv.2, hvc.2.2⟩
  · exact List.Pairwise.sublist (List.take_sublist 20 _) (sorted_valueCounts _)
  · intro h1 h2
    have htext : ∀ s ∈ remarks.filterMap id ++ reasons.filterMap id, s = "" := by
      intro s hs
      rcases List.mem_append.mp hs with hs | hs
      · obtain ⟨o, ho, hos⟩ := List.mem_filterMap.mp hs
        rcases h1 o ho with rfl | rfl
        · exact absurd hos (by simp)
        · simpa using hos.symm
      · obtain ⟨o, ho, hos⟩ := List.mem_filterMap.mp hs
        rcases h2 o ho with rfl | rfl
        · exact absurd hos (by simp)
        · simpa using hos.symm
    have hflat : ((remarks.filterMap id ++ reasons.filterMap id).map tokenize).flatten = [] := by
      rw [List.flatten_eq_nil_iff]
      intro l hl
      obtain ⟨s, hs, hsl⟩ := List.mem_map.mp hl
      rw [← hsl, htext s hs]
      rfl
    rw [mineText, hflat]
    simp [valueCounts, uniqueKeys, List.mergeSort_nil]

/-- C8 (witness): input whose text values are all null or empty mines to
the empty result. -/
theorem text_miner_C8_witness :
    mineText [some "", none] [none, some ""] = [] :=
  (text_miner_C8 [some "", none] [none, some ""]).2.2.2 (by decide) (by decide)
